import Mathlib

/-!
Shallow embedding of the client-side message-synchronization layer of the
anonymous chat application (frontend sources under
src/frontend/src/features/chat and src/frontend/src/hooks/useQueries.ts),
together with proofs about the message ordering comparator, the optimistic
send reconciler, the structural-sharing reconciler, message equality, and
the visibility filter.

Modelling conventions (JavaScript semantics made explicit):
 - JS BigInt values (message ids, timestamps) are modelled as Int.
 - JS strings are modelled as String; the locale-default
   String.prototype.localeCompare is modelled as code-point lexicographic
   comparison (Lean's String order).
 - Optional / possibly-undefined fields are modelled as Option.
 - JS truthiness: a BigInt is truthy iff nonzero; a string is truthy iff
   nonempty; undefined is falsy.
 - Number(bigint) performs IEEE-754 float64 round-to-nearest-even; this is
   modelled exactly by jsNumber below for all magnitudes below the float64
   overflow threshold (about 1.8e308, far beyond any value occurring here).
   Subtraction and comparison of the resulting doubles is sign-exact for the
   uses in this code, so comparator results are modelled as exact integers.
 - JS Map preserves insertion order and updates existing keys in place; it is
   modelled as an association list with those operations.
-/

set_option maxHeartbeats 1000000

/-- One reaction on a message: an (author, emoji) pair. -/
structure Reaction where
  userId : String
  emoji : String
deriving DecidableEq

/-- Client-side status of an optimistic message. -/
inductive ClientMessageStatus where
  | sending
  | failed
  | sent
deriving DecidableEq

/-- Payload needed to retry a failed message send. -/
structure MessageSendPayload where
  userId : String
  roomId : String
  content : String
  media : Option (List Nat)
  replyTo : Option Int
deriving DecidableEq

/-- The ChatMessage type: a server PublicMessage extended with the client-only
optimistic-update fields (chatMessage.ts). Media bytes are a list of byte
values. -/
structure ChatMessage where
  messageId : Int
  userId : String
  roomId : String
  content : String
  timestamp : Int
  media : Option (List Nat)
  reactions : List Reaction
  replyTo : Option Int
  nickname : String
  clientId : Option String
  clientStatus : Option ClientMessageStatus
  clientErrorText : Option String
  clientSendPayload : Option MessageSendPayload
deriving DecidableEq

/-- Binary exponent by which a natural number must be shifted down to fit in
53 bits; fuel-based structural recursion (4096 covers every magnitude below
2 to the 4149, far beyond the float64 range). -/
def jsExpAux (fuel : Nat) (m : Nat) : Nat :=
  match fuel with
  | 0 => 0
  | fuel + 1 => if m < 2 ^ 53 then 0 else jsExpAux fuel (m / 2) + 1

/-- Round a natural number to the nearest float64-representable integer
(round-to-nearest, ties to even), as performed by the JS Number(bigint)
conversion for magnitudes below the float64 overflow threshold. -/
def roundToDouble (m : Nat) : Nat :=
  let e := jsExpAux 4096 m
  if e = 0 then m
  else
    let q := m / 2 ^ e
    let r := m % 2 ^ e
    let h := 2 ^ (e - 1)
    (if r < h then q else if h < r then q + 1
     else if q % 2 = 0 then q else q + 1) * 2 ^ e

/-- The JS conversion Number(bigint), as an exact integer (the float64 value
is an exact integer at every magnitude where it differs from the input). -/
def jsNumber (n : Int) : Int :=
  if 0 ≤ n then (roundToDouble n.natAbs : Int) else -(roundToDouble n.natAbs : Int)

/-- JS truthiness of a possibly-undefined string field. -/
def strTruthy (s : Option String) : Bool :=
  match s with
  | none => false
  | some s => !s.isEmpty

/-- Model of String.prototype.localeCompare restricted to its sign
(code-point lexicographic order). -/
def localeCompare (a b : String) : Int :=
  if a < b then -1 else if b < a then 1 else 0

/-- compareMessages from messageOrdering.ts: timestamp (via Number) first,
then server id when both are truthy (nonzero), then confirmed-before-optimistic
on clientId truthiness, then clientId lexical order. -/
def compareMessages (a b : ChatMessage) : Int :=
  let timeA := jsNumber a.timestamp
  let timeB := jsNumber b.timestamp
  if timeA ≠ timeB then timeA - timeB
  else if a.messageId ≠ 0 ∧ b.messageId ≠ 0 then
    jsNumber a.messageId - jsNumber b.messageId
  else if strTruthy a.clientId ∧ ¬ strTruthy b.clientId then 1
  else if ¬ strTruthy a.clientId ∧ strTruthy b.clientId then -1
  else if strTruthy a.clientId ∧ strTruthy b.clientId then
    localeCompare (a.clientId.getD "") (b.clientId.getD "")
  else 0

/-- Stable insertion into a list already sorted by the comparator: the new
element goes before the first element it does not strictly follow.  This is
the standard model of a stable comparator sort. -/
def insertSorted (x : ChatMessage) : List ChatMessage → List ChatMessage
  | [] => [x]
  | y :: ys => if compareMessages x y ≤ 0 then x :: y :: ys else y :: insertSorted x ys

/-- sortMessages from messageOrdering.ts: a stable sort of a copy of the
input by compareMessages (JS Array.prototype.sort is specified stable). -/
def sortMessages : List ChatMessage → List ChatMessage
  | [] => []
  | x :: xs => insertSorted x (sortMessages xs)

/-- A confirmed message whose nanosecond timestamp exceeds floatDemoB by one
nanosecond, within the same millisecond. -/
def floatDemoA : ChatMessage :=
  { messageId := 1, userId := "u1", roomId := "r", content := "first",
    timestamp := 1700000000000000001, media := none, reactions := [],
    replyTo := none, nickname := "", clientId := none, clientStatus := none,
    clientErrorText := none, clientSendPayload := none }

/-- The other half of the same-millisecond pair (id 2). -/
def floatDemoB : ChatMessage :=
  { messageId := 2, userId := "u2", roomId := "r", content := "second",
    timestamp := 1700000000000000000, media := none, reactions := [],
    replyTo := none, nickname := "", clientId := none, clientStatus := none,
    clientErrorText := none, clientSendPayload := none }

/-- A JS Map with keys of type kappa and ChatMessage values, modelled as an
association list in insertion order.  Map.prototype.set updates an existing
key in place (keeping its position) and otherwise appends. -/
def mapSet {κ : Type} [DecidableEq κ] (m : List (κ × ChatMessage)) (k : κ)
    (v : ChatMessage) : List (κ × ChatMessage) :=
  if m.any (fun p => decide (p.1 = k)) then
    m.map (fun p => if p.1 = k then (k, v) else p)
  else m ++ [(k, v)]

/-- Map.prototype.get: the value of the first (and only) entry with the key. -/
def mapGet {κ : Type} [DecidableEq κ] (m : List (κ × ChatMessage)) (k : κ) :
    Option ChatMessage :=
  (m.find? (fun p => decide (p.1 = k))).map (fun p => p.2)

/-- The string keys of the merge map in mergeMessages: msg.messageId.toString()
for backend messages and "optimistic-" ++ clientId for optimistic ones.
BigInt.toString is injective and a decimal numeral never starts with the
letter o, so the string key space is modelled extensionally by this
two-constructor type. -/
inductive MergeKey where
  | server (id : Int)
  | client (cid : String)
deriving DecidableEq

/-- First phase of mergeMessages: all backend messages keyed by id. -/
def buildBackendMap (backendMessages : List ChatMessage) :
    List (MergeKey × ChatMessage) :=
  backendMessages.foldl (fun m msg => mapSet m (.server msg.messageId) msg) []

/-- The duplicate search inside mergeMessages: the first key of the map whose
entry has the same content as msg and a timestamp (as Number) within strictly
five seconds in nanoseconds. -/
def optimisticDuplicateKey (m : List (MergeKey × ChatMessage))
    (msg : ChatMessage) : Option MergeKey :=
  (m.map (fun p => p.1)).find? (fun key =>
    match mapGet m key with
    | some existing =>
        decide (existing.content = msg.content ∧
          (jsNumber existing.timestamp - jsNumber msg.timestamp).natAbs < 5000000000)
    | none => false)

/-- Second phase of mergeMessages, one optimistic message: added under its
optimistic-clientId key only when it has a truthy clientId, is not yet sent,
and no sufficiently similar entry is already in the map. -/
def addOptimistic (m : List (MergeKey × ChatMessage)) (msg : ChatMessage) :
    List (MergeKey × ChatMessage) :=
  if strTruthy msg.clientId ∧ msg.clientStatus ≠ some .sent then
    match optimisticDuplicateKey m msg with
    | some _ => m
    | none => mapSet m (.client (msg.clientId.getD "")) msg
  else m

/-- mergeMessages from messageOrdering.ts. -/
def mergeMessages (backendMessages optimisticMessages : List ChatMessage) :
    List ChatMessage :=
  let m := optimisticMessages.foldl addOptimistic (buildBackendMap backendMessages)
  sortMessages (m.map (fun p => p.2))

/-- The usePostMessage onSuccess cache updater (useQueries.ts) on a populated
cache: drop every entry whose clientId strictly equals the correlation id of
the send, then insert the confirmed server message unless its id is already
present. -/
def postMessageOnSuccess (data : ChatMessage) (clientId : Option String)
    (old : List ChatMessage) : List ChatMessage :=
  let withoutOptimistic := old.filter (fun msg => decide (msg.clientId ≠ clientId))
  let alreadyExists :=
    withoutOptimistic.any (fun msg => decide (msg.messageId = data.messageId))
  if alreadyExists then withoutOptimistic
  else sortMessages (withoutOptimistic ++ [data])

/-- The unknown error value received by extractErrorMessage: an Error object
carrying a message string, a plain string, or anything else. -/
inductive JsError where
  | errorObj (message : String)
  | strVal (s : String)
  | otherVal
deriving DecidableEq

/-- Whether the first list is an initial segment of the second. -/
def charsStartWith : List Char → List Char → Bool
  | [], _ => true
  | _ :: _, [] => false
  | a :: as, b :: bs => a == b && charsStartWith as bs

/-- Whether the pattern occurs as a contiguous run of the list. -/
def charsContain (pat : List Char) : List Char → Bool
  | [] => charsStartWith pat []
  | c :: rest => charsStartWith pat (c :: rest) || charsContain pat rest

/-- String.prototype.includes. -/
def strIncludes (s pat : String) : Bool := charsContain pat.data s.data

/-- The Error-object branch of extractErrorMessage (messageErrors.ts); string
length is modelled as character count (the patterns and messages involved are
within the basic plane, where this agrees with the JS UTF-16 length for the
comparison made here). -/
def extractErrorFromText (message : String) : String :=
  if strIncludes message "Room does not exist" then "This room no longer exists."
  else if strIncludes message "Room has no messages" then "Unable to access room messages."
  else if strIncludes message "only edit your own" then "You can only edit your own messages."
  else if strIncludes message "only delete your own" then "You can only delete your own messages."
  else if strIncludes message "Message not found" then "This message no longer exists."
  else if strIncludes message "network" || strIncludes message "Network" then
    "Network error. Please check your connection and try again."
  else if strIncludes message "fetch" || strIncludes message "Failed to fetch" then
    "Connection failed. Please check your internet connection."
  else if strIncludes message "timeout" || strIncludes message "timed out" then
    "Request timed out. Please try again."
  else if strIncludes message "Actor not initialized" then
    "Connection lost. Please refresh the page."
  else if strIncludes message "canister" || strIncludes message "Canister" then
    "Backend service error. Please try again in a moment."
  else if message.length < 100 && !strIncludes message "undefined" then message
  else "An unexpected error occurred. Please try again."

/-- extractErrorMessage from messageErrors.ts. -/
def extractErrorMessage : JsError → String
  | .errorObj message => extractErrorFromText message
  | .strVal s => s
  | .otherVal => "An unexpected error occurred. Please try again."

/-- The usePostMessage onError cache updater (useQueries.ts) in the branch
where the send carried a truthy clientId and the cache is populated: every
entry whose clientId strictly equals it becomes failed with the extracted
error text; all other entries are returned as they are. -/
def postMessageOnError (error : JsError) (clientId : String)
    (old : List ChatMessage) : List ChatMessage :=
  old.map (fun msg =>
    if msg.clientId = some clientId then
      { msg with clientStatus := some .failed,
                 clientErrorText := some (extractErrorMessage error) }
    else msg)

/-- C1: the claim states compareMessages performs full-precision integer
comparison, returning a positive value whenever the first timestamp is
larger, even for nanosecond differences beyond 2^53.  The code converts the
BigInt timestamps with Number() (float64): at realistic nanosecond epochs
(about 1.7e18) the float64 grid spacing is 256 ns, so two messages one
nanosecond apart in the same millisecond convert to the same double and the
comparator falls through to the id tie-break, here returning a negative
value although the first timestamp is strictly larger. -/
theorem compareMessages_truncates_nanoseconds :
    floatDemoB.timestamp < floatDemoA.timestamp ∧
    Int.tdiv floatDemoA.timestamp 1000000 = Int.tdiv floatDemoB.timestamp 1000000 ∧
    compareMessages floatDemoA floatDemoB = -1 := by
  refine ⟨by decide, by decide, ?_⟩
  decide

/-- An optimistic sending entry for the text hello with correlation id c. -/
def optimisticHello : ChatMessage :=
  { messageId := 0, userId := "u", roomId := "r", content := "hello",
    timestamp := 1000, media := none, reactions := [], replyTo := none,
    nickname := "", clientId := some "c", clientStatus := some .sending,
    clientErrorText := none,
    clientSendPayload := some
      { userId := "u", roomId := "r", content := "hello", media := none,
        replyTo := none } }

/-- The server confirmation of that send: id 42, same content, a slightly
later server timestamp. -/
def serverHello : ChatMessage :=
  { messageId := 42, userId := "u", roomId := "r", content := "hello",
    timestamp := 1500, media := none, reactions := [], replyTo := none,
    nickname := "anon", clientId := none, clientStatus := none,
    clientErrorText := none, clientSendPayload := none }

/-- C4: the claim states that confirm-then-refresh and refresh-then-confirm
converge to the same final list.  With the rendered list holding one
optimistic sending entry and a fresh server list that does not yet contain
the confirmed message, confirming first and then merging loses the confirmed
message entirely (mergeMessages keeps only optimistic entries from its second
argument, and the confirmed message is not optimistic), while merging first
and then confirming keeps it: the two orders produce different lists. -/
theorem confirm_then_refresh_diverges :
    mergeMessages [] (postMessageOnSuccess serverHello (some "c") [optimisticHello]) = [] ∧
    postMessageOnSuccess serverHello (some "c") (mergeMessages [] [optimisticHello]) =
      [serverHello] ∧
    ([] : List ChatMessage) ≠ [serverHello] := by
  refine ⟨by decide, by decide, by decide⟩

/-- A rendered entry with server id 42. -/
def dupIdA : ChatMessage :=
  { messageId := 42, userId := "u1", roomId := "r", content := "hello",
    timestamp := 1500, media := none, reactions := [], replyTo := none,
    nickname := "a", clientId := none, clientStatus := none,
    clientErrorText := none, clientSendPayload := none }

/-- A second, distinct rendered entry that also carries server id 42. -/
def dupIdB : ChatMessage :=
  { messageId := 42, userId := "u2", roomId := "r", content := "other",
    timestamp := 1600, media := none, reactions := [], replyTo := none,
    nickname := "b", clientId := none, clientStatus := none,
    clientErrorText := none, clientSendPayload := none }

/-- C2 counterexample: the claim asserts that for every rendered list the
confirm-send update leaves at most one entry with the confirmed message id.
On a rendered list already holding two distinct entries with that id, the
duplicate guard sees the id as present and returns both entries unchanged. -/
theorem postMessageOnSuccess_duplicate_ids :
    ¬ ((postMessageOnSuccess serverHello (some "c") [dupIdA, dupIdB]).countP
        (fun x => decide (x.messageId = serverHello.messageId)) ≤ 1) := by
  decide

/-- A backend message with id 1 and content x. -/
def backendDupX : ChatMessage :=
  { messageId := 1, userId := "u1", roomId := "r", content := "x",
    timestamp := 0, media := none, reactions := [], replyTo := none,
    nickname := "", clientId := none, clientStatus := none,
    clientErrorText := none, clientSendPayload := none }

/-- A second backend message with the same id 1 but content y. -/
def backendDupY : ChatMessage :=
  { messageId := 1, userId := "u2", roomId := "r", content := "y",
    timestamp := 0, media := none, reactions := [], replyTo := none,
    nickname := "", clientId := none, clientStatus := none,
    clientErrorText := none, clientSendPayload := none }

/-- An optimistic entry matching backendDupX in content and timestamp. -/
def optimisticDupX : ChatMessage :=
  { messageId := 0, userId := "u1", roomId := "r", content := "x",
    timestamp := 0, media := none, reactions := [], replyTo := none,
    nickname := "", clientId := some "c", clientStatus := some .sending,
    clientErrorText := none, clientSendPayload := none }

/-- C3 counterexample: the claim asserts that for every backend list
containing a message b, merging with a similar optimistic entry keeps b and
drops the optimistic one.  When the backend list holds a second message with
the same id, the merge map keeps only the later one, so b is lost, the
optimistic entry no longer matches anything and it is inserted under its
correlation key — both asserted conclusions fail although every stated
hypothesis (membership, matching content, close timestamps, sending status)
holds at this input. -/
theorem mergeMessages_duplicate_backend_ids :
    backendDupX ∈ [backendDupX, backendDupY] ∧
    optimisticDupX.content = backendDupX.content ∧
    optimisticDupX.timestamp = backendDupX.timestamp ∧
    backendDupX ∉ mergeMessages [backendDupX, backendDupY] [optimisticDupX] ∧
    optimisticDupX ∈ mergeMessages [backendDupX, backendDupY] [optimisticDupX] := by
  refine ⟨by decide, by decide, by decide, by decide, by decide⟩

/-- C9 counterexample: the claim asserts the fail-send update attaches a
non-empty error text for every send error.  An Error whose own message is the
empty string falls through every pattern of extractErrorMessage to the
short-message branch, which returns the empty string itself. -/
theorem postMessageOnError_empty_text :
    ¬ (∀ x ∈ postMessageOnError (.errorObj "") "c" [optimisticHello],
        x.clientErrorText ≠ some "") := by
  decide

theorem insertSorted_perm (x : ChatMessage) (l : List ChatMessage) :
    (insertSorted x l).Perm (x :: l) := by
  induction l with
  | nil => simp [insertSorted]
  | cons y ys ih =>
    simp only [insertSorted]
    split
    · exact List.Perm.refl _
    · exact (ih.cons y).trans (List.Perm.swap x y ys)

theorem sortMessages_perm (l : List ChatMessage) : (sortMessages l).Perm l := by
  induction l with
  | nil => simp [sortMessages]
  | cons x xs ih => exact (insertSorted_perm x (sortMessages xs)).trans (ih.cons x)

theorem mapSet_of_not_mem {κ : Type} [DecidableEq κ] {m : List (κ × ChatMessage)}
    {k : κ} {v : ChatMessage} (h : ∀ p ∈ m, p.1 ≠ k) :
    mapSet m k v = m ++ [(k, v)] := by
  unfold mapSet
  rw [if_neg]
  intro hc
  obtain ⟨p, hp, hpk⟩ := List.any_eq_true.mp hc
  exact h p hp (of_decide_eq_true hpk)

theorem foldl_mapSet_eq {κ : Type} [DecidableEq κ] (key : ChatMessage → κ)
    (B : List ChatMessage) :
    ∀ acc : List (κ × ChatMessage),
      B.Pairwise (fun x y => key x ≠ key y) →
      (∀ msg ∈ B, ∀ p ∈ acc, p.1 ≠ key msg) →
      B.foldl (fun m msg => mapSet m (key msg) msg) acc =
        acc ++ B.map (fun msg => (key msg, msg)) := by
  induction B with
  | nil => intro acc _ _; simp
  | cons b B ih =>
    intro acc hp hacc
    simp only [List.foldl_cons, List.map_cons]
    rw [mapSet_of_not_mem (fun p hpm => hacc b (List.mem_cons_self b B) p hpm)]
    have hrec := ih (acc ++ [(key b, b)]) (List.pairwise_cons.mp hp).2 ?_
    · rw [hrec]; simp
    · intro msg hmsg p hpmem
      rcases List.mem_append.mp hpmem with h1 | h2
      · exact hacc msg (List.mem_cons_of_mem b hmsg) p h1
      · have hpe : p = (key b, b) := by simpa using h2
        subst hpe
        exact (List.pairwise_cons.mp hp).1 msg hmsg

theorem buildBackendMap_eq (B : List ChatMessage)
    (h : B.Pairwise (fun x y => x.messageId ≠ y.messageId)) :
    buildBackendMap B = B.map (fun msg => (MergeKey.server msg.messageId, msg)) := by
  have hp : B.Pairwise (fun x y =>
      MergeKey.server x.messageId ≠ MergeKey.server y.messageId) := by
    refine h.imp ?_
    intro a b hne heq
    exact hne (by injection heq)
  have := foldl_mapSet_eq (fun msg => MergeKey.server msg.messageId) B [] hp
    (by intro msg _ p hp2; cases hp2)
  simpa [buildBackendMap] using this

theorem mapGet_map_eq {κ : Type} [DecidableEq κ] (key : ChatMessage → κ)
    (B : List ChatMessage) (b : ChatMessage)
    (h : B.Pairwise (fun x y => key x ≠ key y)) (hb : b ∈ B) :
    mapGet (B.map (fun msg => (key msg, msg))) (key b) = some b := by
  induction B with
  | nil => cases hb
  | cons a B ih =>
    rcases List.mem_cons.mp hb with rfl | hbB
    · simp [mapGet, List.find?_cons]
    · have hne : key a ≠ key b := (List.pairwise_cons.mp h).1 b hbB
      have ht := ih (List.pairwise_cons.mp h).2 hbB
      have hd : (decide ((key a, a).1 = key b)) = false := by simp [hne]
      simp only [mapGet, List.map_cons, List.find?_cons, hd]
      simp only [mapGet] at ht
      exact ht

theorem countP_eq_one_of_pairwise (B : List ChatMessage) (b : ChatMessage)
    (h : B.Pairwise (fun x y => x.messageId ≠ y.messageId)) (hb : b ∈ B) :
    B.countP (fun x => decide (x.messageId = b.messageId)) = 1 := by
  induction B with
  | nil => cases hb
  | cons a B ih
  => rcases List.mem_cons.mp hb with rfl | hbB
     · have hz : B.countP (fun x => decide (x.messageId = b.messageId)) = 0 := by
         rw [List.countP_eq_zero]
         intro x hx
         simp only [decide_eq_true_eq]
         exact fun he => (List.pairwise_cons.mp h).1 x hx he.symm
       simp [List.countP_cons, hz]
     · have hne : a.messageId ≠ b.messageId := (List.pairwise_cons.mp h).1 b hbB
       have ht := ih (List.pairwise_cons.mp h).2 hbB
       simp [List.countP_cons, ht, hne]

/-- C3 (amended): for a backend list with pairwise-distinct message ids
containing b, merging with one unsent optimistic message carrying a truthy
correlation id, the same content as b, and a timestamp strictly within five
seconds (as converted to Number) of b, yields a permutation of the backend
list: b is kept, the optimistic entry is dropped (nothing is added under its
correlation key), and exactly one entry carries b's message id. -/
theorem mergeMessages_drops_similar_optimistic
    (B : List ChatMessage) (b o : ChatMessage)
    (hB : B.Pairwise (fun x y => x.messageId ≠ y.messageId))
    (hbB : b ∈ B)
    (hcid : strTruthy o.clientId = true)
    (hst : o.clientStatus ≠ some ClientMessageStatus.sent)
    (hcontent : o.content = b.content)
    (hts : (jsNumber b.timestamp - jsNumber o.timestamp).natAbs < 5000000000) :
    (mergeMessages B [o]).Perm B ∧ b ∈ mergeMessages B [o] ∧
      (mergeMessages B [o]).countP
        (fun x => decide (x.messageId = b.messageId)) = 1 := by
  have hkp : B.Pairwise (fun x y =>
      MergeKey.server x.messageId ≠ MergeKey.server y.messageId) := by
    refine hB.imp ?_
    intro x y hne heq
    exact hne (by injection heq)
  have hmap := buildBackendMap_eq B hB
  have hget : mapGet (buildBackendMap B) (MergeKey.server b.messageId) = some b := by
    rw [hmap]
    exact mapGet_map_eq (fun msg => MergeKey.server msg.messageId) B b hkp hbB
  have hdup : (optimisticDuplicateKey (buildBackendMap B) o).isSome = true := by
    unfold optimisticDuplicateKey
    rw [List.find?_isSome]
    refine ⟨MergeKey.server b.messageId, ?_, ?_⟩
    · rw [hmap, List.map_map]
      exact List.mem_map_of_mem _ hbB
    · simp only [hget, decide_eq_true_eq]
      exact ⟨hcontent.symm, hts⟩
  obtain ⟨k, hk⟩ := Option.isSome_iff_exists.mp hdup
  have haddo : addOptimistic (buildBackendMap B) o = buildBackendMap B := by
    unfold addOptimistic
    rw [if_pos ⟨hcid, hst⟩, hk]
  have hvals : (buildBackendMap B).map (fun p => p.2) = B := by
    rw [hmap, List.map_map]
    simp [Function.comp_def]
  have hM : mergeMessages B [o] = sortMessages B := by
    simp only [mergeMessages, List.foldl_cons, List.foldl_nil, haddo, hvals]
  have hperm : (mergeMessages B [o]).Perm B := by
    rw [hM]; exact sortMessages_perm B
  exact ⟨hperm, hperm.mem_iff.mpr hbB,
    (hperm.countP_eq _).trans (countP_eq_one_of_pairwise B b hB hbB)⟩

theorem mergeMessages_drops_similar_optimistic_witness :
    backendDupX ∈ mergeMessages [backendDupX] [optimisticDupX] :=
  (mergeMessages_drops_similar_optimistic [backendDupX] backendDupX optimisticDupX
    (by decide) (by decide) (by decide) (by decide) (by decide) (by decide)).2.1

/-- C2 (amended): for a rendered list holding at most one entry with the
confirmed message id, the confirm-send cache updater leaves no entry with the
send's correlation id and at most one entry with the confirmed id; and when
no surviving entry already carries that id, the confirmed message itself is
inserted. -/
theorem postMessageOnSuccess_unique (L : List ChatMessage) (m : ChatMessage)
    (c : String) (hm : m.clientId = none)
    (hcount : L.countP (fun x => decide (x.messageId = m.messageId)) ≤ 1) :
    (∀ x ∈ postMessageOnSuccess m (some c) L, x.clientId ≠ some c) ∧
    (postMessageOnSuccess m (some c) L).countP
        (fun x => decide (x.messageId = m.messageId)) ≤ 1 ∧
    ((∀ x ∈ L, x.clientId ≠ some c → x.messageId ≠ m.messageId) →
      m ∈ postMessageOnSuccess m (some c) L) := by
  have hWsub : (L.filter (fun msg => decide (msg.clientId ≠ some c))).Sublist L :=
    List.filter_sublist L
  have hWc : ∀ x ∈ L.filter (fun msg => decide (msg.clientId ≠ some c)),
      x.clientId ≠ some c := by
    intro x hx
    exact of_decide_eq_true (List.mem_filter.mp hx).2
  simp only [postMessageOnSuccess]
  by_cases hex : (L.filter (fun msg => decide (msg.clientId ≠ some c))).any
      (fun msg => decide (msg.messageId = m.messageId)) = true
  · rw [if_pos hex]
    refine ⟨hWc, le_trans (hWsub.countP_le _) hcount, ?_⟩
    intro hall
    obtain ⟨x, hxW, hxid⟩ := List.any_eq_true.mp hex
    exact absurd (of_decide_eq_true hxid)
      (hall x (hWsub.subset hxW) (hWc x hxW))
  · rw [if_neg hex]
    have hperm := sortMessages_perm
      (L.filter (fun msg => decide (msg.clientId ≠ some c)) ++ [m])
    refine ⟨?_, ?_, fun _ =>
      hperm.mem_iff.mpr (List.mem_append.mpr (Or.inr (List.mem_singleton_self m)))⟩
    · intro x hx
      rcases List.mem_append.mp (hperm.subset hx) with hxW | hxm
      · exact hWc x hxW
      · rw [List.mem_singleton.mp hxm, hm]
        simp
    · rw [hperm.countP_eq, List.countP_append]
      have hW0 : (L.filter (fun msg => decide (msg.clientId ≠ some c))).countP
          (fun x => decide (x.messageId = m.messageId)) = 0 := by
        rw [List.countP_eq_zero]
        exact fun x hx hp => hex (List.any_eq_true.mpr ⟨x, hx, hp⟩)
      rw [hW0]
      simp [List.countP_cons]

theorem postMessageOnSuccess_unique_witness :
    serverHello ∈ postMessageOnSuccess serverHello (some "c") [optimisticHello] :=
  (postMessageOnSuccess_unique [optimisticHello] serverHello "c"
    (by decide) (by decide)).2.2 (by decide)

theorem extractErrorFromText_ne_empty (e : String) (he : e ≠ "") :
    extractErrorFromText e ≠ "" := by
  unfold extractErrorFromText
  split_ifs <;> first | decide | exact he

/-- C9 (amended): the fail-send cache updater keeps the list length, turns
every entry carrying the send's correlation id into the same entry with
status failed and the extracted error text attached — all other fields,
including the stored retry payload, unchanged — and returns every other entry
exactly as it was; the attached text is non-empty whenever the error's own
message is non-empty. -/
theorem postMessageOnError_marks_failed (e c : String) (L : List ChatMessage)
    (i : Nat) (x : ChatMessage) (hx : L[i]? = some x) :
    (postMessageOnError (.errorObj e) c L).length = L.length ∧
    (x.clientId = some c →
      (postMessageOnError (.errorObj e) c L)[i]? =
        some { x with clientStatus := some ClientMessageStatus.failed,
                      clientErrorText := some (extractErrorMessage (.errorObj e)) }) ∧
    (x.clientId ≠ some c → (postMessageOnError (.errorObj e) c L)[i]? = some x) ∧
    (e ≠ "" → extractErrorMessage (.errorObj e) ≠ "") := by
  refine ⟨by simp [postMessageOnError], ?_, ?_, ?_⟩
  · intro hcx
    unfold postMessageOnError
    rw [List.getElem?_map, hx]
    simp [hcx]
  · intro hcx
    unfold postMessageOnError
    rw [List.getElem?_map, hx]
    simp [hcx]
  · intro he
    exact extractErrorFromText_ne_empty e he

theorem postMessageOnError_marks_failed_witness :
    (postMessageOnError (.errorObj "network down") "c" [optimisticHello])[0]? =
      some { optimisticHello with
               clientStatus := some ClientMessageStatus.failed,
               clientErrorText :=
                 some (extractErrorMessage (.errorObj "network down")) } :=
  (postMessageOnError_marks_failed "network down" "c" [optimisticHello] 0
    optimisticHello (by decide)).2.1 (by decide)

/-- getMediaFingerprint (mediaFingerprint.ts): length plus up to the first
eight and, when disjoint from them, the last eight byte values, dash
separated; the empty string for absent or empty media. -/
def getMediaFingerprint : Option (List Nat) → String
  | none => ""
  | some media =>
    if media.length = 0 then ""
    else
      let len := media.length
      let start := min 8 len
      let endStart := len - 8
      let fp := (media.take start).foldl
        (fun acc byte => acc ++ "-" ++ toString byte) (toString len)
      if start < endStart then
        (media.drop endStart).foldl (fun acc byte => acc ++ "-" ++ toString byte) fp
      else fp

/-- messagesEqual from the messageEquality module (the variant cited by the
claims, which always compares media through the fingerprint): id, content,
reaction count, reply target, media fingerprint, then the (emoji, author)
reaction sequence pairwise. -/
def messagesEqual (a b : ChatMessage) : Bool :=
  if a.messageId ≠ b.messageId then false
  else if a.content ≠ b.content then false
  else if a.reactions.length ≠ b.reactions.length then false
  else if a.replyTo ≠ b.replyTo then false
  else if getMediaFingerprint a.media ≠ getMediaFingerprint b.media then false
  else (a.reactions.zip b.reactions).all
    (fun p => decide (p.1.emoji = p.2.emoji ∧ p.1.userId = p.2.userId))

theorem zip_reactions_all_of_map_eq :
    ∀ (l1 l2 : List Reaction),
      l1.map (fun r => (r.emoji, r.userId)) = l2.map (fun r => (r.emoji, r.userId)) →
      ((l1.zip l2).all
        (fun p => decide (p.1.emoji = p.2.emoji ∧ p.1.userId = p.2.userId))) = true
  | [], [], _ => rfl
  | [], _ :: _, h => by simp at h
  | _ :: _, [], h => by simp at h
  | a :: l1, b :: l2, h => by
    simp only [List.map_cons, List.cons.injEq, Prod.mk.injEq] at h
    simp only [List.zip_cons_cons, List.all_cons, Bool.and_eq_true, decide_eq_true_eq]
    exact ⟨⟨h.1.1, h.1.2⟩, zip_reactions_all_of_map_eq l1 l2 h.2⟩

/-- C10: messagesEqual returns true whenever the stable fields agree — same
id, same content, same reply target, pairwise-equal (emoji, author) reaction
sequences, and equal media fingerprints — with no condition at all on the
nickname, the author id, the timestamp, or any client-side status field. -/
theorem messagesEqual_ignores_volatile_fields (a b : ChatMessage)
    (hid : a.messageId = b.messageId)
    (hcontent : a.content = b.content)
    (hreply : a.replyTo = b.replyTo)
    (hreact : a.reactions.map (fun r => (r.emoji, r.userId)) =
      b.reactions.map (fun r => (r.emoji, r.userId)))
    (hmedia : getMediaFingerprint a.media = getMediaFingerprint b.media) :
    messagesEqual a b = true := by
  have hlen : a.reactions.length = b.reactions.length := by
    have := congrArg List.length hreact
    simpa using this
  unfold messagesEqual
  rw [if_neg (by simp [hid]), if_neg (by simp [hcontent]),
      if_neg (by simp [hlen]), if_neg (by simp [hreply]),
      if_neg (by simp [hmedia])]
  exact zip_reactions_all_of_map_eq a.reactions b.reactions hreact

/-- Two renderings of the same server message that differ in nickname,
author id, timestamp and client status, but agree on all stable fields. -/
def renderedV1 : ChatMessage :=
  { messageId := 7, userId := "user-one", roomId := "r", content := "hi",
    timestamp := 111, media := some [1, 2, 3],
    reactions := [{ userId := "u2", emoji := "+1" }], replyTo := some 3,
    nickname := "Old Nick", clientId := none, clientStatus := some .sent,
    clientErrorText := none, clientSendPayload := none }

/-- The refreshed rendering: new nickname, author id, timestamp, no status. -/
def renderedV2 : ChatMessage :=
  { messageId := 7, userId := "user-two", roomId := "r", content := "hi",
    timestamp := 222, media := some [1, 2, 3],
    reactions := [{ userId := "u2", emoji := "+1" }], replyTo := some 3,
    nickname := "New Nick", clientId := none, clientStatus := none,
    clientErrorText := none, clientSendPayload := none }

theorem messagesEqual_ignores_volatile_fields_witness :
    messagesEqual renderedV1 renderedV2 = true :=
  messagesEqual_ignores_volatile_fields renderedV1 renderedV2
    (by decide) (by decide) (by decide) (by decide) (by decide)

theorem messagesEqual_refl (a : ChatMessage) : messagesEqual a a = true := by
  unfold messagesEqual
  rw [if_neg (by simp), if_neg (by simp), if_neg (by simp), if_neg (by simp),
      if_neg (by simp)]
  exact zip_reactions_all_of_map_eq a.reactions a.reactions rfl

/-- The lookup map of structuralShareMessages: previous messages keyed by
their BigInt messageId (later duplicates overwrite earlier ones in place). -/
def buildOldMap (oldData : List ChatMessage) : List (Int × ChatMessage) :=
  oldData.foldl (fun m msg => mapSet m msg.messageId msg) []

/-- Whether any element of the fresh list fails to find an equal previous
message under its id (the hasChanges flag of structuralShareMessages). -/
def structuralShareHasChanges (oldData newData : List ChatMessage) : Bool :=
  newData.any (fun newMsg =>
    match mapGet (buildOldMap oldData) newMsg.messageId with
    | some oldMsg => !messagesEqual oldMsg newMsg
    | none => true)

/-- The element-wise output of structuralShareMessages: each fresh message is
replaced by the equal previous message holding its id, when there is one. -/
def structuralShareResult (oldData newData : List ChatMessage) :
    List ChatMessage :=
  newData.map (fun newMsg =>
    match mapGet (buildOldMap oldData) newMsg.messageId with
    | some oldMsg => if messagesEqual oldMsg newMsg then oldMsg else newMsg
    | none => newMsg)

/-- Which array object structuralShareMessages returns: the previous array
itself, the fresh argument itself, or a newly allocated array.  JS reference
identity is made explicit by the constructor. -/
inductive ShareOutcome where
  | previousList (l : List ChatMessage)
  | nextList (l : List ChatMessage)
  | freshList (l : List ChatMessage)
deriving DecidableEq

/-- structuralShareMessages from structuralShareMessages.ts, with the
identity of the returned array recorded in the outcome. -/
def structuralShareMessages (oldData : Option (List ChatMessage))
    (newData : List ChatMessage) : ShareOutcome :=
  match oldData with
  | none => .nextList newData
  | some old =>
    if old.length = 0 then .nextList newData
    else if newData.length = 0 then .nextList newData
    else if structuralShareHasChanges old newData = false ∧
        old.length = newData.length then .previousList old
    else .freshList (structuralShareResult old newData)

/-- C7 counterexample: the claim asserts reconciling any list against itself
returns the same list identity.  On a list with two distinct entries sharing
a message id, the id-keyed lookup maps both positions to the later entry, the
first position therefore compares unequal, the hasChanges flag is set, and a
newly allocated array is returned instead of either argument. -/
theorem structuralShare_self_fresh_copy :
    structuralShareMessages (some [backendDupX, backendDupY])
        [backendDupX, backendDupY] ≠
      ShareOutcome.previousList [backendDupX, backendDupY] ∧
    structuralShareMessages (some [backendDupX, backendDupY])
        [backendDupX, backendDupY] ≠
      ShareOutcome.nextList [backendDupX, backendDupY] := by
  refine ⟨by decide, by decide⟩

/-- C7 (amended): for every previous list whose entries carry pairwise
distinct message ids, reconciling the list against itself returns one of the
two input references unchanged — the previous array when the list is
non-empty, the (identical) fresh argument when it is empty — never a new
allocation. -/
theorem structuralShare_self_returns_input (L : List ChatMessage)
    (h : L.Pairwise (fun x y => x.messageId ≠ y.messageId)) :
    structuralShareMessages (some L) L = ShareOutcome.previousList L ∨
    structuralShareMessages (some L) L = ShareOutcome.nextList L := by
  have hmap : buildOldMap L = L.map (fun msg => (msg.messageId, msg)) := by
    have := foldl_mapSet_eq (fun msg => msg.messageId) L [] h
      (by intro msg _ p hp; cases hp)
    simpa [buildOldMap] using this
  by_cases hL : L.length = 0
  · right
    show (if L.length = 0 then ShareOutcome.nextList L
      else if L.length = 0 then ShareOutcome.nextList L
      else if structuralShareHasChanges L L = false ∧ L.length = L.length then
        ShareOutcome.previousList L
      else ShareOutcome.freshList (structuralShareResult L L)) =
      ShareOutcome.nextList L
    rw [if_pos hL]
  · left
    have hnc : structuralShareHasChanges L L = false := by
      unfold structuralShareHasChanges
      rw [List.any_eq_false]
      intro msg hmsg
      rw [hmap, mapGet_map_eq (fun msg => msg.messageId) L msg h hmsg]
      simp [messagesEqual_refl]
    show (if L.length = 0 then ShareOutcome.nextList L
      else if L.length = 0 then ShareOutcome.nextList L
      else if structuralShareHasChanges L L = false ∧ L.length = L.length then
        ShareOutcome.previousList L
      else ShareOutcome.freshList (structuralShareResult L L)) =
      ShareOutcome.previousList L
    rw [if_neg hL, if_neg hL, if_pos ⟨hnc, rfl⟩]

theorem structuralShare_self_returns_input_witness :
    structuralShareMessages (some [renderedV1]) [renderedV1] =
      ShareOutcome.previousList [renderedV1] :=
  (structuralShare_self_returns_input [renderedV1] (by decide)).resolve_right
    (by decide)

/-- isMessageWithinLastHour from messageVisibility.ts: the message time is
the BigInt timestamp divided by one million (truncating) converted with
Number, the age is the current Date.now() value minus it, and the message is
kept when the age is at most ONE_HOUR_MS = 3600000.  The current time is an
explicit argument. -/
def isMessageWithinLastHour (now timestamp : Int) : Bool :=
  decide (now - jsNumber (Int.tdiv timestamp 1000000) ≤ 3600000)

/-- filterRecentMessages from messageVisibility.ts. -/
def filterRecentMessages (now : Int) (messages : List ChatMessage) :
    List ChatMessage :=
  messages.filter (fun msg => isMessageWithinLastHour now msg.timestamp)

/-- A wall-clock instant in milliseconds for the visibility scenario. -/
def visibilityDemoNow : Int := 1700000000000

/-- A message timestamped 61 minutes before visibilityDemoNow. -/
def hourDemo61 : ChatMessage :=
  { messageId := 1, userId := "u", roomId := "r", content := "old",
    timestamp := (1700000000000 - 3660000) * 1000000, media := none,
    reactions := [], replyTo := none, nickname := "", clientId := none,
    clientStatus := none, clientErrorText := none, clientSendPayload := none }

/-- A message timestamped 59 minutes before visibilityDemoNow. -/
def hourDemo59 : ChatMessage :=
  { messageId := 2, userId := "u", roomId := "r", content := "recent",
    timestamp := (1700000000000 - 3540000) * 1000000, media := none,
    reactions := [], replyTo := none, nickname := "", clientId := none,
    clientStatus := none, clientErrorText := none, clientSendPayload := none }

/-- C8: filterRecentMessages keeps exactly the messages whose server
timestamp, converted from nanoseconds to client milliseconds, is at most one
hour before the given current time, and drops every older one; in
particular, against a fixed clock a message timestamped 61 minutes ago is
excluded and one timestamped 59 minutes ago is included. -/
theorem filterRecentMessages_one_hour :
    (∀ (now : Int) (messages : List ChatMessage) (m : ChatMessage),
      m ∈ filterRecentMessages now messages ↔
        m ∈ messages ∧ now - jsNumber (Int.tdiv m.timestamp 1000000) ≤ 3600000) ∧
    hourDemo61 ∉ filterRecentMessages visibilityDemoNow [hourDemo61, hourDemo59] ∧
    hourDemo59 ∈ filterRecentMessages visibilityDemoNow [hourDemo61, hourDemo59] := by
  refine ⟨?_, by decide, by decide⟩
  intro now messages m
  unfold filterRecentMessages isMessageWithinLastHour
  rw [List.mem_filter]
  simp

/-- The shape of a confirmed server message in the rendered list: a truthy
(nonzero) server id and no correlation id field set. -/
def isConfirmedShape (m : ChatMessage) : Prop :=
  m.messageId ≠ 0 ∧ strTruthy m.clientId = false

/-- The shape of an optimistic entry: the zero sentinel server id and a
truthy correlation id. -/
def isOptimisticShape (m : ChatMessage) : Prop :=
  m.messageId = 0 ∧ strTruthy m.clientId = true

theorem compareMessages_of_time_ne {a b : ChatMessage}
    (h : jsNumber a.timestamp ≠ jsNumber b.timestamp) :
    compareMessages a b = jsNumber a.timestamp - jsNumber b.timestamp := by
  simp only [compareMessages]
  rw [if_pos h]

theorem compareMessages_of_ids {a b : ChatMessage}
    (ht : jsNumber a.timestamp = jsNumber b.timestamp)
    (ha : a.messageId ≠ 0) (hb : b.messageId ≠ 0) :
    compareMessages a b = jsNumber a.messageId - jsNumber b.messageId := by
  simp only [compareMessages]
  rw [if_neg (not_not_intro ht), if_pos ⟨ha, hb⟩]

theorem compareMessages_conf_opt {a b : ChatMessage}
    (ht : jsNumber a.timestamp = jsNumber b.timestamp)
    (ha : isConfirmedShape a) (hb : isOptimisticShape b) :
    compareMessages a b = -1 := by
  simp only [compareMessages]
  rw [if_neg (not_not_intro ht), if_neg (fun h => h.2 hb.1),
      if_neg (fun h => by rw [ha.2] at h; exact absurd h.1 (by simp)),
      if_pos ⟨by simp [ha.2], hb.2⟩]

theorem compareMessages_opt_conf {a b : ChatMessage}
    (ht : jsNumber a.timestamp = jsNumber b.timestamp)
    (ha : isOptimisticShape a) (hb : isConfirmedShape b) :
    compareMessages a b = 1 := by
  simp only [compareMessages]
  rw [if_neg (not_not_intro ht), if_neg (fun h => h.1 ha.1),
      if_pos ⟨ha.2, by simp [hb.2]⟩]

theorem compareMessages_opt_opt {a b : ChatMessage}
    (ht : jsNumber a.timestamp = jsNumber b.timestamp)
    (ha : isOptimisticShape a) (hb : isOptimisticShape b) :
    compareMessages a b = localeCompare (a.clientId.getD "") (b.clientId.getD "") := by
  simp only [compareMessages]
  rw [if_neg (not_not_intro ht), if_neg (fun h => h.1 ha.1),
      if_neg (fun h => by rw [hb.2] at h; exact absurd h.2 (by simp)),
      if_neg (fun h => h.1 (by simp [ha.2])),
      if_pos ⟨ha.2, hb.2⟩]

theorem compareMessages_cid_tt {a b : ChatMessage}
    (ht : jsNumber a.timestamp = jsNumber b.timestamp)
    (hid : ¬(a.messageId ≠ 0 ∧ b.messageId ≠ 0))
    (hca : strTruthy a.clientId = true) (hcb : strTruthy b.clientId = true) :
    compareMessages a b = localeCompare (a.clientId.getD "") (b.clientId.getD "") := by
  simp only [compareMessages]
  rw [if_neg (not_not_intro ht), if_neg hid, if_neg (fun h => h.2 hcb),
      if_neg (fun h => h.1 hca), if_pos ⟨hca, hcb⟩]

theorem compareMessages_cid_tf {a b : ChatMessage}
    (ht : jsNumber a.timestamp = jsNumber b.timestamp)
    (hid : ¬(a.messageId ≠ 0 ∧ b.messageId ≠ 0))
    (hca : strTruthy a.clientId = true) (hcb : strTruthy b.clientId = false) :
    compareMessages a b = 1 := by
  simp only [compareMessages]
  rw [if_neg (not_not_intro ht), if_neg hid, if_pos ⟨hca, by simp [hcb]⟩]

theorem compareMessages_cid_ft {a b : ChatMessage}
    (ht : jsNumber a.timestamp = jsNumber b.timestamp)
    (hid : ¬(a.messageId ≠ 0 ∧ b.messageId ≠ 0))
    (hca : strTruthy a.clientId = false) (hcb : strTruthy b.clientId = true) :
    compareMessages a b = -1 := by
  simp only [compareMessages]
  rw [if_neg (not_not_intro ht), if_neg hid,
      if_neg (fun h => absurd h.1 (by simp [hca])), if_pos ⟨by simp [hca], hcb⟩]

theorem compareMessages_cid_ff {a b : ChatMessage}
    (ht : jsNumber a.timestamp = jsNumber b.timestamp)
    (hid : ¬(a.messageId ≠ 0 ∧ b.messageId ≠ 0))
    (hca : strTruthy a.clientId = false) (hcb : strTruthy b.clientId = false) :
    compareMessages a b = 0 := by
  simp only [compareMessages]
  rw [if_neg (not_not_intro ht), if_neg hid,
      if_neg (fun h => absurd h.1 (by simp [hca])),
      if_neg (fun h => absurd h.2 (by simp [hcb])),
      if_neg (fun h => absurd h.1 (by simp [hca]))]

theorem localeCompare_self (x : String) : localeCompare x x = 0 := by
  unfold localeCompare
  rw [if_neg (lt_irrefl x), if_neg (lt_irrefl x)]

theorem localeCompare_antisymm (x y : String) :
    localeCompare y x = - localeCompare x y := by
  unfold localeCompare
  split_ifs with h1 h2
  · exact absurd h2 (lt_asymm h1)
  · norm_num
  · norm_num
  · norm_num

theorem localeCompare_neg_iff (x y : String) : localeCompare x y < 0 ↔ x < y := by
  unfold localeCompare
  split_ifs with h1 h2
  · exact iff_of_true (by norm_num) h1
  · exact iff_of_false (by norm_num) (lt_asymm h2)
  · exact iff_of_false (by norm_num) h1

theorem localeCompare_eq_zero_iff (x y : String) : localeCompare x y = 0 ↔ x = y := by
  unfold localeCompare
  split_ifs with h1 h2
  · exact iff_of_false (by norm_num) (ne_of_lt h1)
  · exact iff_of_false (by norm_num) (ne_of_gt h2)
  · exact iff_of_true rfl (le_antisymm (le_of_not_lt h2) (le_of_not_lt h1))

theorem compareMessages_self (a : ChatMessage) : compareMessages a a = 0 := by
  simp only [compareMessages]
  rw [if_neg (not_not_intro rfl)]
  by_cases hid : a.messageId ≠ 0 ∧ a.messageId ≠ 0
  · rw [if_pos hid]
    omega
  · rw [if_neg hid, if_neg (fun h => h.2 h.1), if_neg (fun h => h.1 h.2)]
    by_cases hcid : strTruthy a.clientId = true
    · rw [if_pos ⟨hcid, hcid⟩]
      exact localeCompare_self _
    · rw [if_neg (fun h => hcid h.1)]

theorem compareMessages_antisymm (a b : ChatMessage) :
    compareMessages b a = - compareMessages a b := by
  by_cases ht : jsNumber a.timestamp = jsNumber b.timestamp
  · by_cases hid : a.messageId ≠ 0 ∧ b.messageId ≠ 0
    · rw [compareMessages_of_ids ht hid.1 hid.2,
          compareMessages_of_ids ht.symm hid.2 hid.1]
      ring
    · have hid2 : ¬(b.messageId ≠ 0 ∧ a.messageId ≠ 0) := fun h => hid ⟨h.2, h.1⟩
      rcases Bool.eq_false_or_eq_true (strTruthy a.clientId) with hca | hca
        <;> rcases Bool.eq_false_or_eq_true (strTruthy b.clientId) with hcb | hcb
      · rw [compareMessages_cid_tt ht hid hca hcb,
            compareMessages_cid_tt ht.symm hid2 hcb hca]
        exact localeCompare_antisymm _ _
      · rw [compareMessages_cid_tf ht hid hca hcb,
            compareMessages_cid_ft ht.symm hid2 hcb hca]
        try norm_num
      · rw [compareMessages_cid_ft ht hid hca hcb,
            compareMessages_cid_tf ht.symm hid2 hcb hca]
        try norm_num
      · rw [compareMessages_cid_ff ht hid hca hcb,
            compareMessages_cid_ff ht.symm hid2 hcb hca]
        try norm_num
  · rw [compareMessages_of_time_ne ht,
        compareMessages_of_time_ne (Ne.symm ht)]
    ring

theorem compareMessages_lt_trans (a b c : ChatMessage)
    (ha : isConfirmedShape a ∨ isOptimisticShape a)
    (hb : isConfirmedShape b ∨ isOptimisticShape b)
    (hc : isConfirmedShape c ∨ isOptimisticShape c)
    (h1 : compareMessages a b < 0) (h2 : compareMessages b c < 0) :
    compareMessages a c < 0 := by
  by_cases hab : jsNumber a.timestamp = jsNumber b.timestamp
  · by_cases hbc : jsNumber b.timestamp = jsNumber c.timestamp
    · have hac : jsNumber a.timestamp = jsNumber c.timestamp := hab.trans hbc
      rcases ha with ha | ha <;> rcases hb with hb | hb <;> rcases hc with hc | hc
      · rw [compareMessages_of_ids hab ha.1 hb.1] at h1
        rw [compareMessages_of_ids hbc hb.1 hc.1] at h2
        rw [compareMessages_of_ids hac ha.1 hc.1]
        omega
      · rw [compareMessages_conf_opt hac ha hc]
        norm_num
      · rw [compareMessages_opt_conf hbc hb hc] at h2
        norm_num at h2
      · rw [compareMessages_conf_opt hac ha hc]
        norm_num
      · rw [compareMessages_opt_conf hab ha hb] at h1
        norm_num at h1
      · rw [compareMessages_opt_conf hab ha hb] at h1
        norm_num at h1
      · rw [compareMessages_opt_conf hbc hb hc] at h2
        norm_num at h2
      · rw [compareMessages_opt_opt hab ha hb] at h1
        rw [compareMessages_opt_opt hbc hb hc] at h2
        rw [compareMessages_opt_opt hac ha hc]
        rw [localeCompare_neg_iff] at h1 h2 ⊢
        exact lt_trans h1 h2
    · rw [compareMessages_of_time_ne hbc] at h2
      have : jsNumber a.timestamp ≠ jsNumber c.timestamp := by
        rw [hab]; omega
      rw [compareMessages_of_time_ne this]
      omega
  · rw [compareMessages_of_time_ne hab] at h1
    by_cases hbc : jsNumber b.timestamp = jsNumber c.timestamp
    · have : jsNumber a.timestamp ≠ jsNumber c.timestamp := by
        rw [← hbc]; omega
      rw [compareMessages_of_time_ne this]
      rw [← hbc]
      omega
    · rw [compareMessages_of_time_ne hbc] at h2
      have : jsNumber a.timestamp ≠ jsNumber c.timestamp := by omega
      rw [compareMessages_of_time_ne this]
      omega

theorem compareMessages_eq_trans (a b c : ChatMessage)
    (ha : isConfirmedShape a ∨ isOptimisticShape a)
    (hb : isConfirmedShape b ∨ isOptimisticShape b)
    (hc : isConfirmedShape c ∨ isOptimisticShape c)
    (h1 : compareMessages a b = 0) (h2 : compareMessages b c = 0) :
    compareMessages a c = 0 := by
  have hab : jsNumber a.timestamp = jsNumber b.timestamp := by
    by_contra hne
    rw [compareMessages_of_time_ne hne] at h1
    exact hne (by omega)
  have hbc : jsNumber b.timestamp = jsNumber c.timestamp := by
    by_contra hne
    rw [compareMessages_of_time_ne hne] at h2
    exact hne (by omega)
  have hac : jsNumber a.timestamp = jsNumber c.timestamp := hab.trans hbc
  rcases ha with ha | ha <;> rcases hb with hb | hb <;> rcases hc with hc | hc
  · rw [compareMessages_of_ids hab ha.1 hb.1] at h1
    rw [compareMessages_of_ids hbc hb.1 hc.1] at h2
    rw [compareMessages_of_ids hac ha.1 hc.1]
    omega
  · rw [compareMessages_conf_opt hbc hb hc] at h2
    norm_num at h2
  · rw [compareMessages_opt_conf hbc hb hc] at h2
    norm_num at h2
  · rw [compareMessages_conf_opt hab ha hb] at h1
    norm_num at h1
  · rw [compareMessages_opt_conf hab ha hb] at h1
    norm_num at h1
  · rw [compareMessages_opt_conf hab ha hb] at h1
    norm_num at h1
  · rw [compareMessages_opt_conf hbc hb hc] at h2
    norm_num at h2
  · rw [compareMessages_opt_opt hab ha hb] at h1
    rw [compareMessages_opt_opt hbc hb hc] at h2
    rw [compareMessages_opt_opt hac ha hc]
    rw [localeCompare_eq_zero_iff] at h1 h2 ⊢
    exact h1.trans h2

/-- A confirmed-looking message with id 5 and no correlation id. -/
def swoDemoA : ChatMessage :=
  { messageId := 5, userId := "u", roomId := "r", content := "a",
    timestamp := 0, media := none, reactions := [], replyTo := none,
    nickname := "", clientId := none, clientStatus := none,
    clientErrorText := none, clientSendPayload := none }

/-- A degenerate message carrying the zero sentinel id and no correlation
id (neither a confirmed nor an optimistic shape). -/
def swoDemoB : ChatMessage :=
  { messageId := 0, userId := "u", roomId := "r", content := "b",
    timestamp := 0, media := none, reactions := [], replyTo := none,
    nickname := "", clientId := none, clientStatus := none,
    clientErrorText := none, clientSendPayload := none }

/-- A third message with id 7 and no correlation id. -/
def swoDemoC : ChatMessage :=
  { messageId := 7, userId := "u", roomId := "r", content := "c",
    timestamp := 0, media := none, reactions := [], replyTo := none,
    nickname := "", clientId := none, clientStatus := none,
    clientErrorText := none, clientSendPayload := none }

/-- C5 counterexample: the claim asserts compareMessages is a strict weak
ordering on all message values, its zero results forming an equivalence.
Around a message carrying the zero sentinel id with no correlation id, the
id tie-break is skipped (the zero BigInt is falsy), so both comparisons
against it return zero while the two outer messages compare by id: the
incomparability relation is not transitive, hence not an equivalence. -/
theorem compareMessages_incomparability_not_transitive :
    compareMessages swoDemoA swoDemoB = 0 ∧
    compareMessages swoDemoB swoDemoC = 0 ∧
    compareMessages swoDemoA swoDemoC ≠ 0 := by
  refine ⟨by decide, by decide, by decide⟩

/-- C5 (amended): compareMessages is irreflexive and sign-antisymmetric on
all message values, and on messages of the two shapes the application
constructs — confirmed (truthy server id, no truthy correlation id) and
optimistic (zero sentinel id, truthy correlation id) — both its strict part
and its zero (incomparability) part are transitive, making it a strict weak
ordering there; transitivity of incomparability fails for degenerate shapes
outside these two. -/
theorem compareMessages_strict_weak_order :
    (∀ a : ChatMessage, compareMessages a a = 0) ∧
    (∀ a b : ChatMessage, compareMessages b a = - compareMessages a b) ∧
    (∀ a b c : ChatMessage,
      (isConfirmedShape a ∨ isOptimisticShape a) →
      (isConfirmedShape b ∨ isOptimisticShape b) →
      (isConfirmedShape c ∨ isOptimisticShape c) →
      compareMessages a b < 0 → compareMessages b c < 0 →
      compareMessages a c < 0) ∧
    (∀ a b c : ChatMessage,
      (isConfirmedShape a ∨ isOptimisticShape a) →
      (isConfirmedShape b ∨ isOptimisticShape b) →
      (isConfirmedShape c ∨ isOptimisticShape c) →
      compareMessages a b = 0 → compareMessages b c = 0 →
      compareMessages a c = 0) :=
  ⟨compareMessages_self, compareMessages_antisymm,
   compareMessages_lt_trans, compareMessages_eq_trans⟩

/-- A confirmed message one nanosecond after nearDemoOpt. -/
def nearDemoConf : ChatMessage :=
  { messageId := 1, userId := "u", roomId := "r", content := "a",
    timestamp := 1000001, media := none, reactions := [], replyTo := none,
    nickname := "", clientId := none, clientStatus := none,
    clientErrorText := none, clientSendPayload := none }

/-- An optimistic sending entry one nanosecond before nearDemoConf. -/
def nearDemoOpt : ChatMessage :=
  { messageId := 0, userId := "u", roomId := "r", content := "a",
    timestamp := 1000000, media := none, reactions := [], replyTo := none,
    nickname := "", clientId := some "x", clientStatus := some .sending,
    clientErrorText := none, clientSendPayload := none }

/-- C6 counterexample: the claim asserts a confirmed message sorts before an
optimistic one at an equal or near-equal timestamp.  The comparator compares
timestamps first, so with timestamps one nanosecond apart (as near-equal as
distinct integer stamps get) the earlier optimistic entry sorts before the
confirmed one: the result is positive, not negative. -/
theorem compareMessages_near_equal_optimistic_first :
    nearDemoConf.timestamp - nearDemoOpt.timestamp = 1 ∧
    0 < compareMessages nearDemoConf nearDemoOpt := by
  refine ⟨by decide, by decide⟩

/-- C6 (amended): the confirmed-before-optimistic rule holds exactly at
timestamps equal after the float64 Number conversion: a confirmed message
(nonzero id, no correlation id) then always precedes an optimistic one (zero
sentinel id, truthy correlation id); and two optimistic entries with equal
timestamps are ordered by code-point lexical comparison of their correlation
ids. -/
theorem compareMessages_tie_break_rules :
    (∀ a b : ChatMessage, a.messageId ≠ 0 → a.clientId = none →
      b.messageId = 0 → strTruthy b.clientId = true →
      jsNumber a.timestamp = jsNumber b.timestamp →
      compareMessages a b < 0) ∧
    (∀ a b : ChatMessage, a.messageId = 0 → b.messageId = 0 →
      strTruthy a.clientId = true → strTruthy b.clientId = true →
      a.timestamp = b.timestamp →
      (compareMessages a b < 0 ↔ a.clientId.getD "" < b.clientId.getD "")) := by
  constructor
  · intro a b hid hcid hbid hbcid ht
    rw [compareMessages_conf_opt ht ⟨hid, by simp [strTruthy, hcid]⟩ ⟨hbid, hbcid⟩]
    norm_num
  · intro a b haid hbid hacid hbcid ht
    rw [compareMessages_opt_opt (by rw [ht]) ⟨haid, hacid⟩ ⟨hbid, hbcid⟩]
    exact localeCompare_neg_iff _ _
